import Mathlib

/-!
Shallow embedding of the artifact ingestion and lifecycle pipeline of
`fastify-file-upload-api` (`src/server.ts`).

The embedding models the five route handlers that carry the system's logic:
`POST /upload`, `GET /images`, `DELETE /images/:filename`,
`POST /upload-certificate`, `GET /certificates`, `DELETE /certificates/:filename`.
Filesystem state is a list of `(filename, sizeBytes)` pairs per directory;
timestamps are integer milliseconds since the epoch; multipart streaming is
modelled by the byte list the client sends together with an optional abort
point, under the `@fastify/multipart` `fileSize` limit.
-/

/- ### Time and the lifecycle classifier (GET /certificates, server.ts lines 639-653) -/

/-- Milliseconds in one day, written as in the source: `1000 * 60 * 60 * 24`. -/
def msPerDay : Int := 1000 * 60 * 60 * 24

/-- Ceiling division on integers: `Math.ceil(a / b)` for integer `a` and positive
integer `b`, via `ceil (a / b) = -floor (-a / b)`. -/
def ceilDiv (a b : Int) : Int := -(Int.fdiv (-a) b)

/-- Certificate lifecycle status, the three values of the `status` field in the
`GET /certificates` response schema. -/
inductive CertStatus
  | active
  | expired
  | expiringSoon
deriving DecidableEq, Repr

/-- Line 643: `Math.ceil((mockExpirationDate.getTime() - now.getTime()) / (1000*60*60*24))`. -/
def daysUntilExpiration (expirationMs nowMs : Int) : Int :=
  ceilDiv (expirationMs - nowMs) msPerDay

/-- Lines 648-653: `status` starts as `"active"`, becomes `"expired"` when
`daysUntilExpiration < 0`, else `"expiring_soon"` when `daysUntilExpiration <= 30`. -/
def classifyStatus (expirationMs nowMs : Int) : CertStatus :=
  if daysUntilExpiration expirationMs nowMs < 0 then .expired
  else if daysUntilExpiration expirationMs nowMs ≤ 30 then .expiringSoon
  else .active

/-- Lines 639-641: `new Date(Date.now() + 365 * 24 * 60 * 60 * 1000)`, the mocked
expiration date, one year after the first clock read. -/
def mockExpirationMs (nowMs : Int) : Int := nowMs + 365 * msPerDay

/-- Status computed for each entry of the certificate listing: the classifier
applied to the mocked expiration date.  `t1` is the clock read of line 640
(`Date.now()`), `t2` the clock read of line 642 (`new Date()`). -/
def certListStatus (t1 t2 : Int) : CertStatus :=
  classifyStatus (mockExpirationMs t1) t2

/- ### Node's `path.extname` on plain file names -/

/-- Index of the last `'.'` in a character list, scanning left to right with an
accumulator. -/
def lastDotIdxAux : List Char → Nat → Option Nat → Option Nat
  | [], _, acc => acc
  | c :: cs, i, acc => lastDotIdxAux cs (i + 1) (if c = '.' then some i else acc)

/-- Index of the last `'.'` in a character list, if any. -/
def lastDotIdx (l : List Char) : Option Nat := lastDotIdxAux l 0 none

/-- Models Node's `path.extname` for names that contain no path separator (the
only inputs it receives here: multipart filenames and `readdirSync` entries).
Node returns the suffix starting at the last dot, except that it returns `""`
when there is no dot, when the last dot is the first character (dotfiles such
as `.gitignore`), and for the special name `".."`. -/
def extname (s : String) : String :=
  match lastDotIdx s.data with
  | none => ""
  | some i =>
    if i = 0 then "" else if s.data = ['.', '.'] then "" else String.mk (s.data.drop i)

/-- JavaScript's `toLowerCase()`, applied characterwise (the inputs here are
ASCII file extensions). -/
def lowercase (s : String) : String := String.mk (s.data.map Char.toLower)

/- ### Stores, multipart file parts and the pump -/

/-- A storage directory: the files it contains, as `(filename, sizeBytes)` pairs.
`uploadsDir` and `certificatesDir` are two separate values of this type. -/
def Store := List (String × Nat)

instance : Membership (String × Nat) Store := inferInstanceAs (Membership _ (List _))

instance : DecidableEq Store := inferInstanceAs (DecidableEq (List (String × Nat)))

/-- `fs.existsSync(path.join(dir, filename))`: some entry of the directory has
that name. -/
def hasFile (s : Store) (name : String) : Bool := s.any (fun e => e.1 == name)

/-- `fs.unlinkSync`: remove the entry with the given name. -/
def removeFile (s : Store) (name : String) : Store := List.filter (fun e => e.1 != name) s

/-- A multipart file part as the handlers see it: declared filename, declared
MIME type, the byte stream the client sends, and `file.readableLength`, the
number of bytes sitting in the stream's internal buffer when the handler
inspects it (NOT the total size of the stream). -/
structure FilePart where
  filename : String
  mimetype : String
  content : List Nat
  readableLength : Nat
deriving DecidableEq, Repr

/-- `limits.fileSize` of the multipart plugin registration (line 74) and
`maxSize` of the certificate handler (line 526): `5 * 1024 * 1024`. -/
def fileSizeLimit : Nat := 5 * 1024 * 1024

/-- Line 254: the image MIME whitelist. -/
def allowedImageTypes : List String := ["image/jpeg", "image/jpg", "image/png", "image/gif"]

/-- Line 512 and lines 630-631: the certificate extension whitelist. -/
def certExtensions : List String := [".pfx", ".p12"]

/-- Lines 333-334: the image extension whitelist used by the listing filter. -/
def imageExtensions : List String := [".jpg", ".jpeg", ".png", ".gif"]

/-- Models `await pump(part.file, fs.createWriteStream(filePath))` under the
multipart `fileSize` limit.  Returns `(succeeded, bytesOnDisk)`:
`fs.createWriteStream` creates the target in every case, and
`stream.pipeline` destroys the streams on failure but never unlinks the file,
so the bytes written so far stay on disk.  If the client aborts after `k`
bytes the pump rejects with `min k limit` bytes written; if the stream is
longer than the limit, busboy truncates it at the limit and the plugin's
default `throwFileSizeLimit` makes the pump reject with `limit` bytes
written; otherwise the pump resolves having written the whole stream. -/
def pumpBytes (content : List Nat) (abortAfter : Option Nat) : Bool × Nat :=
  match abortAfter with
  | some k => (false, min k fileSizeLimit)
  | none =>
    if content.length > fileSizeLimit then (false, fileSizeLimit)
    else (true, content.length)

/- ### POST /upload (server.ts lines 242-297) -/

/-- Reply of the image upload route: the 200 body of lines 278-286, or the
`(statusCode, error, message)` of one of its error replies. -/
inductive ImageReply
  | ok (code : Nat) (message filename originalName : String) (size : Nat)
      (mimetype url : String)
  | err (code : Nat) (error message : String)
deriving DecidableEq, Repr

/-- Reply is an error reply. -/
def ImageReply.isErr : ImageReply → Bool
  | .err _ _ _ => true
  | .ok _ _ _ _ _ _ _ => false

/-- Stored size reported by a successful image upload, if the reply is a 200. -/
def ImageReply.okSize : ImageReply → Option Nat
  | .ok _ _ _ _ sz _ _ => some sz
  | .err _ _ _ => none

/-- Line 269: `` `${uuidv4()}${fileExtension}` `` with the raw (not lowercased)
`path.extname` of the declared filename. -/
def imageStoredName (uuid ext : String) : String := uuid ++ ext

/-- Line 535: `` `cert_${uuidv4()}${fileExtension}` `` with the lowercased
extension. -/
def certStoredName (uuid ext : String) : String := "cert_" ++ uuid ++ ext

/-- The `POST /upload` handler (lines 242-297).  `data` is the result of
`request.file()` (`none` when no file part arrived), `abortAfter` the point at
which the client's stream fails (if it does), `uuid` the value of `uuidv4()`.
Returns the reply and the resulting uploads directory. -/
def uploadImage (s : Store) (data : Option FilePart) (abortAfter : Option Nat)
    (uuid : String) : ImageReply × Store :=
  match data with
  | none =>
    (.err 400 "Arquivo não encontrado" "Nenhum arquivo foi enviado na requisição", s)
  | some d =>
    if d.mimetype ∈ allowedImageTypes then
      let uniqueFilename := imageStoredName uuid (extname d.filename)
      let pumped := pumpBytes d.content abortAfter
      let s' : Store := (uniqueFilename, pumped.2) :: s
      if pumped.1 then
        (.ok 200 "Imagem enviada com sucesso" uniqueFilename d.filename pumped.2
          d.mimetype ("http://localhost:3000/uploads/" ++ uniqueFilename), s')
      else
        (.err 500 "Erro interno do servidor"
          "Ocorreu um erro ao processar o upload da imagem", s')
    else
      (.err 400 "Tipo de arquivo inválido" "Apenas arquivos JPG, PNG e GIF são permitidos", s)

/- ### POST /upload-certificate (server.ts lines 482-586) -/

/-- Reply of the certificate upload route: the 200 body of lines 553-563
(expiration returned as integer milliseconds rather than its ISO rendering),
or one of its error replies. -/
inductive CertReply
  | ok (code : Nat) (message filename originalName : String) (size : Nat)
      (mimetype : String) (expirationMs : Int) (subject issuer : String)
  | err (code : Nat) (error message : String)
deriving DecidableEq, Repr

/-- Reply is an error reply. -/
def CertReply.isErr : CertReply → Bool
  | .err _ _ _ => true
  | .ok _ _ _ _ _ _ _ _ _ => false

/-- Stored size reported by a successful certificate upload, if the reply is a 200. -/
def CertReply.okSize : CertReply → Option Nat
  | .ok _ _ _ _ sz _ _ _ _ => some sz
  | .err _ _ _ => none

/-- Line 549: the mocked certificate subject. -/
def mockSubject : String := "CN=Empresa Exemplo, O=Empresa Exemplo LTDA"

/-- Line 550: the mocked certificate issuer. -/
def mockIssuer : String := "CN=AC Exemplo, O=Autoridade Certificadora Exemplo"

/-- The `POST /upload-certificate` handler (lines 482-586).  `cert` is the file
part collected from the multipart iteration (`none` when no `certificate` file
part arrived), `password` the collected `password` field (`""` when the field
was absent, matching the initialisation of line 486), `abortAfter` and `uuid`
as for images, `nowMs` the clock read of line 547.  Returns the reply and the
resulting certificates directory. -/
def uploadCertificate (s : Store) (cert : Option FilePart) (password : String)
    (abortAfter : Option Nat) (uuid : String) (nowMs : Int) : CertReply × Store :=
  match cert with
  | none =>
    (.err 400 "Certificado não encontrado"
      "Nenhum arquivo de certificado foi enviado na requisição", s)
  | some c =>
    if password = "" then
      (.err 400 "Senha obrigatória" "A senha do certificado é obrigatória", s)
    else
      let fileExtension := lowercase (extname c.filename)
      if fileExtension ∈ certExtensions then
        if c.readableLength > fileSizeLimit then
          (.err 400 "Arquivo muito grande" "O certificado deve ter no máximo 5MB", s)
        else
          let uniqueFilename := certStoredName uuid fileExtension
          let pumped := pumpBytes c.content abortAfter
          let s' : Store := (uniqueFilename, pumped.2) :: s
          if pumped.1 then
            (.ok 200 "Certificado digital enviado e validado com sucesso" uniqueFilename
              c.filename pumped.2 c.mimetype (mockExpirationMs nowMs) mockSubject
              mockIssuer, s')
          else
            (.err 500 "Erro interno do servidor"
              "Ocorreu um erro ao processar o upload do certificado", s')
      else
        (.err 400 "Tipo de arquivo inválido"
          "Apenas arquivos .pfx e .p12 são permitidos para certificados digitais", s)

/- ### GET /images and GET /certificates (server.ts lines 329-358, 626-678) -/

/-- Lines 331-335: `readdirSync` then filter by lowercased extension against the
image whitelist. -/
def listImages (s : Store) : Store :=
  List.filter (fun e => decide (lowercase (extname e.1) ∈ imageExtensions)) s

/-- Lines 628-632: `readdirSync` then filter by lowercased extension against the
certificate whitelist. -/
def listCertificates (s : Store) : Store :=
  List.filter (fun e => decide (lowercase (extname e.1) ∈ certExtensions)) s

/-- Lines 634-664: each listed certificate carries the status computed from the
mocked expiration (`t1` the `Date.now()` read of line 640, `t2` the
`new Date()` read of line 642). -/
def certificatesListing (s : Store) (t1 t2 : Int) : List (String × Nat × CertStatus) :=
  (listCertificates s).map (fun e => (e.1, e.2, certListStatus t1 t2))

/- ### DELETE /images/:filename and DELETE /certificates/:filename -/

/-- Reply of a delete route. -/
inductive DeleteReply
  | ok (message : String)
  | err (code : Nat) (error message : String)
deriving DecidableEq, Repr

/-- The `DELETE /images/:filename` handler (lines 401-427): 404 when the file
does not exist, otherwise unlink it.  No extension check is performed. -/
def deleteImage (s : Store) (filename : String) : DeleteReply × Store :=
  if hasFile s filename then
    (.ok "Imagem deletada com sucesso", removeFile s filename)
  else
    (.err 404 "Arquivo não encontrado" "A imagem especificada não existe", s)

/-- The `DELETE /certificates/:filename` handler (lines 721-757): 404 when the
file does not exist, then 400 when the lowercased extension is not `.pfx` or
`.p12`, otherwise unlink it. -/
def deleteCertificate (s : Store) (filename : String) : DeleteReply × Store :=
  if hasFile s filename then
    if lowercase (extname filename) ∈ certExtensions then
      (.ok "Certificado digital deletado com sucesso", removeFile s filename)
    else
      (.err 400 "Arquivo inválido"
        "Apenas certificados .pfx e .p12 podem ser deletados por esta rota", s)
  else
    (.err 404 "Certificado não encontrado" "O certificado especificado não existe", s)

/- ### UUIDs and stored-name shape (C7) -/

/-- Characters of the textual rendering of a version-4 UUID as produced by the
`uuid` package: lowercase hexadecimal digits and the dash. -/
def isUuidChar (c : Char) : Bool :=
  (decide (48 ≤ c.toNat) && decide (c.toNat ≤ 57)) ||
  (decide (97 ≤ c.toNat) && decide (c.toNat ≤ 102)) || c.toNat == 45

/-- A string is a UUID rendering: 36 characters, all lowercase-hex or dash. -/
def isUuidString (s : String) : Prop :=
  s.data.length = 36 ∧ ∀ c ∈ s.data, isUuidChar c = true

instance (s : String) : Decidable (isUuidString s) :=
  inferInstanceAs (Decidable (_ ∧ _))

/- ### The fixed error vocabulary of the two ingest routes (C9) -/

/-- Every `(statusCode, error, message)` triple the image upload route can
answer with on failure (lines 247-250, 261-264, 291-294): all are string
literals of the source. -/
def imageErrorTable : List (Nat × String × String) :=
  [(400, "Arquivo não encontrado", "Nenhum arquivo foi enviado na requisição"),
   (400, "Tipo de arquivo inválido", "Apenas arquivos JPG, PNG e GIF são permitidos"),
   (500, "Erro interno do servidor", "Ocorreu um erro ao processar o upload da imagem")]

/-- Every `(statusCode, error, message)` triple the certificate upload route
can answer with on failure (lines 498-501, 505-508, 518-522, 528-531,
580-583): all are string literals of the source. -/
def certErrorTable : List (Nat × String × String) :=
  [(400, "Certificado não encontrado", "Nenhum arquivo de certificado foi enviado na requisição"),
   (400, "Senha obrigatória", "A senha do certificado é obrigatória"),
   (400, "Tipo de arquivo inválido",
     "Apenas arquivos .pfx e .p12 são permitidos para certificados digitais"),
   (400, "Arquivo muito grande", "O certificado deve ter no máximo 5MB"),
   (500, "Erro interno do servidor", "Ocorreu um erro ao processar o upload do certificado")]

/-! ## Helper lemmas -/

/-- Ceiling division by a day, rewritten through euclidean division so that
`omega` can reason about it. -/
theorem ceilDiv_msPerDay (a : Int) : ceilDiv a msPerDay = -(-a / 86400000) := by
  rw [ceilDiv, Int.fdiv_eq_ediv _ (by norm_num [msPerDay])]
  norm_num [msPerDay]

/-- `daysUntilExpiration` through euclidean division. -/
theorem daysUntilExpiration_eq (e n : Int) :
    daysUntilExpiration e n = -(-(e - n) / 86400000) := by
  rw [daysUntilExpiration, ceilDiv_msPerDay]

/-- Membership in a filtered store. -/
theorem mem_filter_store (p : String × Nat → Bool) (s : Store) (e : String × Nat) :
    e ∈ List.filter p s ↔ e ∈ s ∧ p e = true :=
  List.mem_filter

/-! ## C1: the lifecycle classifier -/

/-- Claim C1: the lifecycle classification computes
`daysRemaining = ceil((expirationDate - now) / 1 day)` and returns `Expired`
when `daysRemaining < 0`, `ExpiringSoon` when `0 ≤ daysRemaining ≤ 30`, and
`Active` when `daysRemaining > 30`; in particular 31 days out classifies as
`Active`, exactly 30 days out as `ExpiringSoon`, exactly now as
`ExpiringSoon`, and 1 day in the past as `Expired`. -/
theorem C1_lifecycle_classifier (e n : Int) :
    (daysUntilExpiration e n < 0 → classifyStatus e n = .expired) ∧
    (0 ≤ daysUntilExpiration e n ∧ daysUntilExpiration e n ≤ 30 →
      classifyStatus e n = .expiringSoon) ∧
    (30 < daysUntilExpiration e n → classifyStatus e n = .active) ∧
    classifyStatus (n + 31 * msPerDay) n = .active ∧
    classifyStatus (n + 30 * msPerDay) n = .expiringSoon ∧
    classifyStatus n n = .expiringSoon ∧
    classifyStatus (n - msPerDay) n = .expired := by
  have h31 : daysUntilExpiration (n + 31 * msPerDay) n = 31 := by
    rw [daysUntilExpiration_eq]; simp only [msPerDay]; omega
  have h30 : daysUntilExpiration (n + 30 * msPerDay) n = 30 := by
    rw [daysUntilExpiration_eq]; simp only [msPerDay]; omega
  have h0 : daysUntilExpiration n n = 0 := by
    rw [daysUntilExpiration_eq]; omega
  have hm1 : daysUntilExpiration (n - msPerDay) n = -1 := by
    rw [daysUntilExpiration_eq]; simp only [msPerDay]; omega
  refine ⟨?_, ?_, ?_, ?_, ?_, ?_, ?_⟩
  · intro h; rw [classifyStatus, if_pos h]
  · intro h; rw [classifyStatus, if_neg (by omega), if_pos h.2]
  · intro h; rw [classifyStatus, if_neg (by omega), if_neg (by omega)]
  · rw [classifyStatus, h31]; norm_num
  · rw [classifyStatus, h30]; norm_num
  · rw [classifyStatus, h0]; norm_num
  · rw [classifyStatus, hm1]; norm_num

/-- Closed instance of C1 at concrete times (now = 0, expiration one day
earlier, at now, and 31 days later). -/
theorem C1_lifecycle_classifier_witness :
    classifyStatus (-86400000) 0 = .expired ∧
    classifyStatus 0 0 = .expiringSoon ∧
    classifyStatus (0 + 31 * msPerDay) 0 = .active := by
  refine ⟨?_, ?_, ?_⟩
  · exact (C1_lifecycle_classifier (-86400000) 0).1 (by decide)
  · exact (C1_lifecycle_classifier 0 0).2.1 (by decide)
  · exact (C1_lifecycle_classifier 0 0).2.2.2.1

/-! ## C10: the mocked expiration keeps every listed certificate active -/

/-- Claim C10: every certificate returned by the certificate listing has
status `active`: the expiration used for classification is computed at listing
time as now plus 365 days, so `daysUntilExpiration` exceeds 30 and the
`expired` / `expiring_soon` branches are unreachable.  `t1 ≤ t2` are the two
clock reads of the handler (lines 640 and 642); the second read happens
microseconds after the first, here allowed to lag by up to 334 days. -/
theorem C10_mock_status_always_active (s : Store) (t1 t2 : Int) (entry : String × Nat × CertStatus)
    (hord : t1 ≤ t2) (hlag : t2 - t1 ≤ 334 * msPerDay)
    (hmem : entry ∈ certificatesListing s t1 t2) :
    entry.2.2 = .active ∧ 30 < daysUntilExpiration (mockExpirationMs t1) t2 := by
  have hdays : 30 < daysUntilExpiration (mockExpirationMs t1) t2 := by
    rw [daysUntilExpiration_eq, mockExpirationMs]
    simp only [msPerDay] at *
    omega
  refine ⟨?_, hdays⟩
  obtain ⟨f, hf, hmap⟩ := List.mem_map.1 hmem
  have : entry.2.2 = certListStatus t1 t2 := by rw [← hmap]
  rw [this, certListStatus, classifyStatus]
  rw [if_neg (by omega), if_neg (by omega)]

/-- Closed instance of C10: a one-certificate store listed at time 0. -/
theorem C10_mock_status_always_active_witness :
    ("cert_a.pfx", 10, CertStatus.active) ∈ certificatesListing [("cert_a.pfx", 10)] 0 0 ∧
    ("cert_a.pfx", 10, CertStatus.active).2.2 = CertStatus.active := by
  have hmem : ("cert_a.pfx", 10, CertStatus.active) ∈ certificatesListing [("cert_a.pfx", 10)] 0 0 := by
    decide
  exact ⟨hmem,
    (C10_mock_status_always_active [("cert_a.pfx", 10)] 0 0 _ (by decide) (by decide) hmem).1⟩

/-! ## C8: listing filters by lowercased whitelisted extension -/

/-- Claim C8: `list(category)` returns exactly the stored entries whose
lowercased extension is in that category's whitelist: every returned entry has
a whitelisted extension, and every stored file with a whitelisted extension
appears in the listing.  Stated for both categories. -/
theorem C8_listing_filters_by_extension (s : Store) (e : String × Nat) :
    (e ∈ listImages s ↔ e ∈ s ∧ lowercase (extname e.1) ∈ imageExtensions) ∧
    (e ∈ listCertificates s ↔ e ∈ s ∧ lowercase (extname e.1) ∈ certExtensions) := by
  constructor
  · rw [listImages, mem_filter_store]
    simp
  · rw [listCertificates, mem_filter_store]
    simp

/-! ## C6: missing certificate password -/

/-- Claim C6: a certificate ingest whose password field is absent or empty
(both leave the handler's `password` variable `""`) fails with the
`MissingPassword` validation error — an error distinct from the file-type
errors — even when the file part itself is valid, and no file is written to
storage (the directory is returned unchanged). -/
theorem C6_password_required (s : Store) (f : FilePart) (pw : String)
    (abortAfter : Option Nat) (uuid : String) (nowMs : Int) (hpw : pw = "") :
    uploadCertificate s (some f) pw abortAfter uuid nowMs =
      (.err 400 "Senha obrigatória" "A senha do certificado é obrigatória", s) ∧
    ("Senha obrigatória" : String) ≠ "Tipo de arquivo inválido" ∧
    ("Senha obrigatória" : String) ≠ "Certificado não encontrado" := by
  subst hpw
  refine ⟨?_, by decide, by decide⟩
  simp [uploadCertificate]

/-- Closed instance of C6: a valid `.pfx` part with an empty password is
rejected with `Senha obrigatória` and the store stays empty. -/
theorem C6_password_required_witness :
    uploadCertificate [] (some ⟨"cert.pfx", "application/x-pkcs12", [1, 2], 2⟩) "" none "u" 0 =
      (.err 400 "Senha obrigatória" "A senha do certificado é obrigatória", []) :=
  (C6_password_required [] ⟨"cert.pfx", "application/x-pkcs12", [1, 2], 2⟩ "" none "u" 0 rfl).1

/-! ## C5: delete validation -/

/-- Counterexample to claim C5: the image delete route performs no extension
check, so an existing file whose extension is outside the image whitelist
(`notes.txt`) is deleted successfully through it instead of being rejected
with an `InvalidCategoryError`. -/
theorem C5_counterexample :
    deleteImage [("notes.txt", 5)] "notes.txt" = (.ok "Imagem deletada com sucesso", []) ∧
    lowercase (extname "notes.txt") ∉ imageExtensions := by
  decide

/-- Claim C5 as amended: both delete routes return `NotFound` when no file of
that name exists.  The certificate route then rejects an existing name whose
lowercased extension is not in {.pfx, .p12} with the invalid-category error
and leaves storage unchanged, and deletes correctly-categorised names; the
image route performs no category check and deletes any existing file. -/
theorem C5_delete_checks (s : Store) (name : String) :
    (hasFile s name = false →
      deleteImage s name =
        (.err 404 "Arquivo não encontrado" "A imagem especificada não existe", s) ∧
      deleteCertificate s name =
        (.err 404 "Certificado não encontrado" "O certificado especificado não existe", s)) ∧
    (hasFile s name = true →
      deleteImage s name = (.ok "Imagem deletada com sucesso", removeFile s name)) ∧
    (hasFile s name = true → lowercase (extname name) ∉ certExtensions →
      deleteCertificate s name =
        (.err 400 "Arquivo inválido"
          "Apenas certificados .pfx e .p12 podem ser deletados por esta rota", s)) ∧
    (hasFile s name = true → lowercase (extname name) ∈ certExtensions →
      deleteCertificate s name =
        (.ok "Certificado digital deletado com sucesso", removeFile s name)) := by
  refine ⟨fun h => ⟨?_, ?_⟩, fun h => ?_, fun h hext => ?_, fun h hext => ?_⟩ <;>
    simp [deleteImage, deleteCertificate, h] <;> simp [hext]

/-- Closed instance of the amended C5 at concrete stores: a missing name is
404, a stored `.txt` is refused by the certificate route but deleted by the
image route, a stored `.pfx` is deleted by the certificate route. -/
theorem C5_delete_checks_witness :
    deleteCertificate [("a.txt", 1)] "nope.pfx" =
      (.err 404 "Certificado não encontrado" "O certificado especificado não existe",
        [("a.txt", 1)]) ∧
    deleteCertificate [("a.txt", 1)] "a.txt" =
      (.err 400 "Arquivo inválido"
        "Apenas certificados .pfx e .p12 podem ser deletados por esta rota", [("a.txt", 1)]) ∧
    deleteImage [("a.txt", 1)] "a.txt" = (.ok "Imagem deletada com sucesso", []) ∧
    deleteCertificate [("b.pfx", 1)] "b.pfx" =
      (.ok "Certificado digital deletado com sucesso", []) := by
  refine ⟨((C5_delete_checks [("a.txt", 1)] "nope.pfx").1 (by decide)).2, ?_, ?_, ?_⟩
  · exact (C5_delete_checks [("a.txt", 1)] "a.txt").2.2.1 (by decide) (by decide)
  · have h := (C5_delete_checks [("a.txt", 1)] "a.txt").2.1 (by decide)
    rw [h]; decide
  · have h := (C5_delete_checks [("b.pfx", 1)] "b.pfx").2.2.2 (by decide) (by decide)
    rw [h]; decide

/-! ## C4: type whitelisting -/

/-- Counterexample to claim C4: an image upload whose declared extension
(`.exe`) is outside the image whitelist but whose declared MIME type is
whitelisted succeeds and stores the file — the image route checks only the
MIME type, never the extension. -/
theorem C4_counterexample :
    uploadImage [] (some ⟨"malware.exe", "image/png", [7], 0⟩) none "u" =
      (.ok 200 "Imagem enviada com sucesso" "u.exe" "malware.exe" 1 "image/png"
        "http://localhost:3000/uploads/u.exe", [("u.exe", 1)]) ∧
    lowercase (extname "malware.exe") ∉ imageExtensions := by
  decide

/-- Claim C4 as amended: image ingest validates only the declared MIME type
against the image whitelist (the extension is not checked), certificate
ingest validates only the lowercased declared extension against {.pfx, .p12}
(the MIME type is not checked); an upload failing the applicable check fails
with the invalid-type error and no file is stored. -/
theorem C4_type_validation (s : Store) (d c : FilePart) (pw : String)
    (abortAfter : Option Nat) (uuid : String) (nowMs : Int) :
    (d.mimetype ∉ allowedImageTypes →
      uploadImage s (some d) abortAfter uuid =
        (.err 400 "Tipo de arquivo inválido" "Apenas arquivos JPG, PNG e GIF são permitidos",
          s)) ∧
    (pw ≠ "" → lowercase (extname c.filename) ∉ certExtensions →
      uploadCertificate s (some c) pw abortAfter uuid nowMs =
        (.err 400 "Tipo de arquivo inválido"
          "Apenas arquivos .pfx e .p12 são permitidos para certificados digitais", s)) := by
  constructor
  · intro h
    simp [uploadImage, h]
  · intro hpw hext
    simp [uploadCertificate, hpw, hext]

/-- Closed instance of the amended C4: a `text/plain` image part and a `.txt`
certificate part are both rejected with the invalid-type error. -/
theorem C4_type_validation_witness :
    uploadImage [] (some ⟨"a.txt", "text/plain", [1], 0⟩) none "u" =
      (.err 400 "Tipo de arquivo inválido" "Apenas arquivos JPG, PNG e GIF são permitidos",
        []) ∧
    uploadCertificate [] (some ⟨"a.txt", "text/plain", [1], 0⟩) "pw" none "u" 0 =
      (.err 400 "Tipo de arquivo inválido"
        "Apenas arquivos .pfx e .p12 são permitidos para certificados digitais", []) := by
  have h := C4_type_validation [] ⟨"a.txt", "text/plain", [1], 0⟩ ⟨"a.txt", "text/plain", [1], 0⟩
    "pw" none "u" 0
  exact ⟨h.1 (by decide), h.2 (by decide) (by decide)⟩

/-! ## C2: the 5 MB ceiling -/

/-- Counterexample to claim C2: an image upload of 5,242,881 bytes (one byte
over the limit) does not fail with a TooLarge-tagged error — the multipart
size limit aborts the pump and the catch block answers with the generic
internal-server error — and the stream truncated at 5,242,880 bytes is left
on storage.  Moreover a zero-byte upload succeeds, so a successful ingest may
store a size of 0. -/
theorem C2_counterexample :
    uploadImage [] (some ⟨"foto.jpg", "image/jpeg", List.replicate 5242881 0, 0⟩) none "u" =
      (.err 500 "Erro interno do servidor" "Ocorreu um erro ao processar o upload da imagem",
        [("u.jpg", 5242880)]) ∧
    (List.replicate 5242881 (0 : Nat)).length = 5242881 ∧
    uploadImage [] (some ⟨"vazio.png", "image/png", [], 0⟩) none "u" =
      (.ok 200 "Imagem enviada com sucesso" "u.png" "vazio.png" 0 "image/png"
        "http://localhost:3000/uploads/u.png", [("u.png", 0)]) := by
  refine ⟨?_, List.length_replicate 5242881 0, by decide⟩
  simp only [uploadImage, pumpBytes]
  rw [List.length_replicate]
  decide

/-- Claim C2 as amended: an upload whose transferred size exceeds 5,242,880
bytes fails, but with the generic internal-server error rather than a
TooLarge-tagged one (the certificate route's TooLarge check tests only the
stream's buffered `readableLength`, not the transferred size), and the
truncated 5,242,880-byte file is left on storage under its unique name; every
ingest that does succeed stored exactly the transferred size, which is at
most 5,242,880 bytes but may be 0. -/
theorem C2_size_ceiling (s : Store) (d c : FilePart) (pw uuid : String) (nowMs : Int) :
    (d.mimetype ∈ allowedImageTypes → d.content.length > fileSizeLimit →
      uploadImage s (some d) none uuid =
        (.err 500 "Erro interno do servidor" "Ocorreu um erro ao processar o upload da imagem",
          (imageStoredName uuid (extname d.filename), fileSizeLimit) :: s)) ∧
    (∀ sz, (uploadImage s (some d) none uuid).1.okSize = some sz →
      sz = d.content.length ∧ sz ≤ fileSizeLimit) ∧
    (pw ≠ "" → lowercase (extname c.filename) ∈ certExtensions →
      c.readableLength ≤ fileSizeLimit → c.content.length > fileSizeLimit →
      uploadCertificate s (some c) pw none uuid nowMs =
        (.err 500 "Erro interno do servidor"
          "Ocorreu um erro ao processar o upload do certificado",
          (certStoredName uuid (lowercase (extname c.filename)), fileSizeLimit) :: s)) ∧
    (∀ sz, (uploadCertificate s (some c) pw none uuid nowMs).1.okSize = some sz →
      sz = c.content.length ∧ sz ≤ fileSizeLimit) := by
  refine ⟨?_, ?_, ?_, ?_⟩
  · intro hm hlen
    simp [uploadImage, pumpBytes, hm, hlen]
  · intro sz hsz
    by_cases hm : d.mimetype ∈ allowedImageTypes
    · by_cases hlen : d.content.length > fileSizeLimit
      · simp [uploadImage, pumpBytes, hm, hlen, ImageReply.okSize] at hsz
      · simp [uploadImage, pumpBytes, hm, hlen, ImageReply.okSize] at hsz
        omega
    · simp [uploadImage, hm, ImageReply.okSize] at hsz
  · intro hpw hext hrl hlen
    simp [uploadCertificate, pumpBytes, hpw, hext, Nat.not_lt.2 hrl, hlen]
  · intro sz hsz
    by_cases hc : c = c
    · by_cases hpw : pw = ""
      · simp [uploadCertificate, hpw, CertReply.okSize] at hsz
      · by_cases hext : lowercase (extname c.filename) ∈ certExtensions
        · by_cases hrl : c.readableLength > fileSizeLimit
          · simp [uploadCertificate, hpw, hext, hrl, CertReply.okSize] at hsz
          · by_cases hlen : c.content.length > fileSizeLimit
            · simp [uploadCertificate, pumpBytes, hpw, hext, hrl, hlen, CertReply.okSize] at hsz
            · simp [uploadCertificate, pumpBytes, hpw, hext, hrl, hlen, CertReply.okSize] at hsz
              omega
        · simp [uploadCertificate, hpw, hext, CertReply.okSize] at hsz
    · exact absurd rfl hc

/-- Closed instance of the amended C2: the truncated upload of the
counterexample, driven through the amended statement. -/
theorem C2_size_ceiling_witness :
    uploadImage [] (some ⟨"foto.jpg", "image/jpeg", List.replicate 5242881 0, 0⟩) none "u" =
      (.err 500 "Erro interno do servidor" "Ocorreu um erro ao processar o upload da imagem",
        [(imageStoredName "u" (extname "foto.jpg"), fileSizeLimit)]) :=
  (C2_size_ceiling [] ⟨"foto.jpg", "image/jpeg", List.replicate 5242881 0, 0⟩
      ⟨"c.pfx", "application/x-pkcs12", [], 0⟩ "pw" "u" 0).1 (by decide)
    (by show (List.replicate 5242881 (0 : Nat)).length > fileSizeLimit
        rw [List.length_replicate]; decide)

/-! ## C3: aborted streams leave a truncated artifact behind -/

/-- Counterexample to claim C3: an image upload aborted after 2 of its 3 bytes
leaves a 2-byte file on storage (the catch block never unlinks it), and that
truncated artifact is reported by a later catalog listing — not zero bytes
and zero entries as the claim requires. -/
theorem C3_counterexample :
    uploadImage [] (some ⟨"foto.jpg", "image/jpeg", [1, 2, 3], 0⟩) (some 2) "u" =
      (.err 500 "Erro interno do servidor" "Ocorreu um erro ao processar o upload da imagem",
        [("u.jpg", 2)]) ∧
    listImages [("u.jpg", 2)] = [("u.jpg", 2)] := by
  decide

/-- Claim C3 as amended: when the byte stream fails mid-transfer the handler
reports the generic internal-server error, but the partially written target
is NOT removed: it stays on storage under its unique name with the bytes
delivered so far, and — its extension being whitelisted — it appears in later
catalog listings. -/
theorem C3_partial_left_behind (s : Store) (d c : FilePart) (pw uuid : String)
    (nowMs : Int) (k : Nat) :
    (d.mimetype ∈ allowedImageTypes →
      uploadImage s (some d) (some k) uuid =
        (.err 500 "Erro interno do servidor" "Ocorreu um erro ao processar o upload da imagem",
          (imageStoredName uuid (extname d.filename), min k fileSizeLimit) :: s)) ∧
    (pw ≠ "" → lowercase (extname c.filename) ∈ certExtensions →
      c.readableLength ≤ fileSizeLimit →
      uploadCertificate s (some c) pw (some k) uuid nowMs =
        (.err 500 "Erro interno do servidor"
          "Ocorreu um erro ao processar o upload do certificado",
          (certStoredName uuid (lowercase (extname c.filename)), min k fileSizeLimit) :: s)) ∧
    (lowercase (extname (imageStoredName uuid (extname d.filename))) ∈ imageExtensions →
      (imageStoredName uuid (extname d.filename), min k fileSizeLimit) ∈
        listImages ((imageStoredName uuid (extname d.filename), min k fileSizeLimit) :: s)) := by
  refine ⟨?_, ?_, ?_⟩
  · intro hm
    simp [uploadImage, pumpBytes, hm]
  · intro hpw hext hrl
    simp [uploadCertificate, pumpBytes, hpw, hext, Nat.not_lt.2 hrl]
  · intro hext
    rw [listImages, mem_filter_store]
    exact ⟨List.mem_cons_self _ _, by simpa using hext⟩

/-- Closed instance of the amended C3: the aborted 3-byte upload of the
counterexample ends as a 2-byte catalogued artifact. -/
theorem C3_partial_left_behind_witness :
    uploadImage [] (some ⟨"foto.jpg", "image/jpeg", [1, 2, 3], 0⟩) (some 2) "u" =
      (.err 500 "Erro interno do servidor" "Ocorreu um erro ao processar o upload da imagem",
        [(imageStoredName "u" (extname "foto.jpg"), min 2 fileSizeLimit)]) ∧
    (imageStoredName "u" (extname "foto.jpg"), min 2 fileSizeLimit) ∈
      listImages [(imageStoredName "u" (extname "foto.jpg"), min 2 fileSizeLimit)] := by
  have h := C3_partial_left_behind [] ⟨"foto.jpg", "image/jpeg", [1, 2, 3], 0⟩
    ⟨"c.pfx", "x", [], 0⟩ "pw" "u" 0 2
  exact ⟨h.1 (by decide), h.2.2 (by decide)⟩

/-! ## C7: unique stored names and disjoint namespaces -/

/-- Claim C7: the stored-name generator is injective in its randomness source
— for two distinct 128-bit random identifiers (UUID renderings: 36 characters
of lowercase hex and dashes) the generated names differ, in either category,
so a name is never reused, even after a deletion — every certificate stored
name carries the `cert_` prefix, no image stored name does (a UUID rendering
cannot begin with `cert_`), and hence the two namespaces are disjoint. -/
theorem C7_unique_names (u1 u2 e1 e2 : String)
    (h1 : isUuidString u1) (h2 : isUuidString u2) :
    (u1 ≠ u2 → imageStoredName u1 e1 ≠ imageStoredName u2 e2) ∧
    (u1 ≠ u2 → certStoredName u1 e1 ≠ certStoredName u2 e2) ∧
    "cert_".data <+: (certStoredName u1 e1).data ∧
    ¬ ("cert_".data <+: (imageStoredName u1 e1).data) ∧
    imageStoredName u1 e1 ≠ certStoredName u2 e2 := by
  have hinj : ∀ a b c d : String, isUuidString a → isUuidString b → a ≠ b →
      a ++ c ≠ b ++ d := by
    intro a b c d ha hb hne h
    apply hne
    have hd : a.data ++ c.data = b.data ++ d.data := by
      have := congrArg String.data h
      simpa [String.data_append] using this
    have hlen : a.data.length = b.data.length := by rw [ha.1, hb.1]
    exact String.ext (List.append_inj hd hlen).1
  have hpre : "cert_".data <+: (certStoredName u1 e1).data := by
    simp [certStoredName, String.data_append]
  have hnot : ¬ ("cert_".data <+: (imageStoredName u1 e1).data) := by
    intro hp
    obtain ⟨t, ht⟩ := hp
    have htake : (imageStoredName u1 e1).data.take 5 = "cert_".data := by
      rw [← ht]; simp
    have h5 : 5 ≤ u1.data.length := by rw [h1.1]; norm_num
    have hidata : (imageStoredName u1 e1).data = u1.data ++ e1.data := by
      simp [imageStoredName, String.data_append]
    have hu5 : u1.data.take 5 = "cert_".data := by
      rw [← List.take_append_of_le_length h5, ← hidata, htake]
    have := h1.2 'r' (List.mem_of_mem_take (by rw [hu5]; decide))
    simp [isUuidChar] at this
  have hcinj : u1 ≠ u2 → certStoredName u1 e1 ≠ certStoredName u2 e2 := by
    intro hne h
    apply hne
    have hd : "cert_".data ++ (u1.data ++ e1.data) =
        "cert_".data ++ (u2.data ++ e2.data) := by
      have := congrArg String.data h
      simpa [certStoredName, String.data_append] using this
    have hd2 := List.append_cancel_left hd
    have hlen : u1.data.length = u2.data.length := by rw [h1.1, h2.1]
    exact String.ext (List.append_inj hd2 hlen).1
  have hcross : imageStoredName u1 e1 ≠ certStoredName u2 e2 := by
    intro h
    apply hnot
    rw [h]
    simp [certStoredName, String.data_append]
  exact ⟨fun hne => hinj u1 u2 e1 e2 h1 h2 hne, hcinj, hpre, hnot, hcross⟩

/-- Closed instance of C7 at two concrete UUID renderings. -/
theorem C7_unique_names_witness :
    imageStoredName "00000000-0000-4000-8000-000000000000" ".jpg" ≠
      imageStoredName "11111111-1111-4111-8111-111111111111" ".png" ∧
    certStoredName "00000000-0000-4000-8000-000000000000" ".pfx" ≠
      certStoredName "11111111-1111-4111-8111-111111111111" ".pfx" ∧
    imageStoredName "00000000-0000-4000-8000-000000000000" ".jpg" ≠
      certStoredName "11111111-1111-4111-8111-111111111111" ".pfx" := by
  have ha := C7_unique_names "00000000-0000-4000-8000-000000000000"
    "11111111-1111-4111-8111-111111111111" ".jpg" ".png" (by decide) (by decide)
  have hb := C7_unique_names "00000000-0000-4000-8000-000000000000"
    "11111111-1111-4111-8111-111111111111" ".pfx" ".pfx" (by decide) (by decide)
  have hc := C7_unique_names "00000000-0000-4000-8000-000000000000"
    "11111111-1111-4111-8111-111111111111" ".jpg" ".pfx" (by decide) (by decide)
  exact ⟨ha.1 (by decide), hb.2.1 (by decide), hc.2.2.2.2⟩

/-! ## C9: error responses are a fixed vocabulary, independent of payloads -/

/-- Claim C9: every failing request answers with an error drawn from a fixed
table of source literals, so the tag and message are independent of the
uploaded bytes, the password and any file-system path; two runs that differ
only in file contents or password and fail in the same branch produce the
identical error response; and no entry of the table contains a path separator
or a newline (hence no file contents, stack traces or internal paths). -/
theorem C9_error_responses_opaque :
    (∀ (s : Store) (data : Option FilePart) (ab : Option Nat) (uuid : String)
        (c : Nat) (e m : String) (s2 : Store),
      uploadImage s data ab uuid = (.err c e m, s2) → (c, e, m) ∈ imageErrorTable) ∧
    (∀ (s : Store) (cert : Option FilePart) (pw : String) (ab : Option Nat)
        (uuid : String) (nowMs : Int) (c : Nat) (e m : String) (s2 : Store),
      uploadCertificate s cert pw ab uuid nowMs = (.err c e m, s2) →
        (c, e, m) ∈ certErrorTable) ∧
    (∀ t ∈ imageErrorTable ++ certErrorTable,
      '/' ∉ t.2.1.data ∧ '/' ∉ t.2.2.data ∧ '\n' ∉ t.2.1.data ∧ '\n' ∉ t.2.2.data) ∧
    (∀ (s : Store) (f1 f2 : FilePart) (ab : Option Nat) (uuid : String),
      f1.filename = f2.filename → f1.mimetype = f2.mimetype →
      (f1.content.length > fileSizeLimit ↔ f2.content.length > fileSizeLimit) →
      (uploadImage s (some f1) ab uuid).1.isErr = true →
      (uploadImage s (some f1) ab uuid).1 = (uploadImage s (some f2) ab uuid).1) ∧
    (∀ (s : Store) (f1 f2 : FilePart) (p1 p2 : String) (ab : Option Nat)
        (uuid : String) (nowMs : Int),
      f1.filename = f2.filename →
      (p1 = "" ↔ p2 = "") →
      (f1.readableLength > fileSizeLimit ↔ f2.readableLength > fileSizeLimit) →
      (f1.content.length > fileSizeLimit ↔ f2.content.length > fileSizeLimit) →
      (uploadCertificate s (some f1) p1 ab uuid nowMs).1.isErr = true →
      (uploadCertificate s (some f1) p1 ab uuid nowMs).1 =
        (uploadCertificate s (some f2) p2 ab uuid nowMs).1) := by
  refine ⟨?_, ?_, by decide, ?_, ?_⟩
  · intro s data ab uuid c e m s2 h
    match data with
    | none =>
      rw [uploadImage, Prod.mk.injEq] at h
      injection h.1 with hc he hm
      subst hc; subst he; subst hm
      decide
    | some d =>
      simp only [uploadImage] at h
      split at h
      · split at h
        · rw [Prod.mk.injEq] at h
          exact absurd h.1 (by intro hx; injection hx)
        · rw [Prod.mk.injEq] at h
          injection h.1 with hc he hm
          subst hc; subst he; subst hm
          decide
      · rw [Prod.mk.injEq] at h
        injection h.1 with hc he hm
        subst hc; subst he; subst hm
        decide
  · intro s cert pw ab uuid nowMs c e m s2 h
    match cert with
    | none =>
      rw [uploadCertificate, Prod.mk.injEq] at h
      injection h.1 with hc he hm
      subst hc; subst he; subst hm
      decide
    | some d =>
      simp only [uploadCertificate] at h
      split at h
      · rw [Prod.mk.injEq] at h
        injection h.1 with hc he hm
        subst hc; subst he; subst hm
        decide
      · split at h
        · split at h
          · rw [Prod.mk.injEq] at h
            injection h.1 with hc he hm
            subst hc; subst he; subst hm
            decide
          · split at h
            · rw [Prod.mk.injEq] at h
              exact absurd h.1 (by intro hx; injection hx)
            · rw [Prod.mk.injEq] at h
              injection h.1 with hc he hm
              subst hc; subst he; subst hm
              decide
        · rw [Prod.mk.injEq] at h
          injection h.1 with hc he hm
          subst hc; subst he; subst hm
          decide
  · intro s f1 f2 ab uuid _hfn hmt hcl herr
    cases ab with
    | some k =>
      by_cases hm : f1.mimetype ∈ allowedImageTypes
      · simp [uploadImage, pumpBytes, hm, hmt ▸ hm]
      · simp [uploadImage, hm, hmt ▸ hm]
    | none =>
      by_cases hm : f1.mimetype ∈ allowedImageTypes
      · by_cases hl : f1.content.length > fileSizeLimit
        · simp [uploadImage, pumpBytes, hm, hmt ▸ hm, hl, hcl.1 hl]
        · have hl2 : ¬ f2.content.length > fileSizeLimit := fun hx => hl (hcl.2 hx)
          simp [uploadImage, pumpBytes, hm, hl, ImageReply.isErr] at herr
      · simp [uploadImage, hm, hmt ▸ hm]
  · intro s f1 f2 p1 p2 ab uuid nowMs hfn hpw hrl hcl herr
    by_cases hp : p1 = ""
    · simp [uploadCertificate, hp, hpw.1 hp]
    · have hp2 : ¬ p2 = "" := fun hx => hp (hpw.2 hx)
      by_cases hext : lowercase (extname f1.filename) ∈ certExtensions
      · have hext2 : lowercase (extname f2.filename) ∈ certExtensions := hfn ▸ hext
        by_cases hr : f1.readableLength > fileSizeLimit
        · simp [uploadCertificate, hp, hp2, hext, hext2, hr, hrl.1 hr]
        · have hr2 : ¬ f2.readableLength > fileSizeLimit := fun hx => hr (hrl.2 hx)
          cases ab with
          | some k =>
            simp [uploadCertificate, pumpBytes, hp, hp2, hext, hext2, hr, hr2]
          | none =>
            by_cases hl : f1.content.length > fileSizeLimit
            · simp [uploadCertificate, pumpBytes, hp, hp2, hext, hext2, hr, hr2, hl,
                hcl.1 hl]
            · simp [uploadCertificate, pumpBytes, hp, hp2, hext, hr, hl,
                CertReply.isErr] at herr
      · have hext2 : lowercase (extname f2.filename) ∉ certExtensions := hfn ▸ hext
        simp [uploadCertificate, hp, hp2, hext, hext2]

/-- Closed instance of C9: two image uploads differing only in their bytes,
both aborted at byte 0, produce the identical error response; and the
missing-password failure is in the certificate error table. -/
theorem C9_error_responses_opaque_witness :
    (uploadImage [] (some ⟨"a.jpg", "image/jpeg", [1], 0⟩) (some 0) "u").1 =
      (uploadImage [] (some ⟨"a.jpg", "image/jpeg", [9, 9], 0⟩) (some 0) "u").1 ∧
    (400, "Senha obrigatória", "A senha do certificado é obrigatória") ∈ certErrorTable := by
  constructor
  · exact C9_error_responses_opaque.2.2.2.1 [] ⟨"a.jpg", "image/jpeg", [1], 0⟩
      ⟨"a.jpg", "image/jpeg", [9, 9], 0⟩ (some 0) "u" rfl rfl (by decide) (by decide)
  · exact C9_error_responses_opaque.2.1 [] (some ⟨"a.pfx", "x", [1], 0⟩) "" none "u" 0
      400 "Senha obrigatória" "A senha do certificado é obrigatória" [] (by decide)
